import Mathlib

/-!
Shallow embedding of `src/user/interstitials.js` (NodeBB registration
interstitial pipeline) and proofs about its three built-in steps
(email update, GDPR consent, terms of use).

External collaborators (privilege service, account store, plugin bus,
deployment configuration, request/session) are modelled as a context
record `Ctx` holding the results the source obtains from them.  Side
effects performed by the email-step callback (the throttle sleep, email
binding removal, field set, confirmation, validation-email dispatch and
the session flag) are recorded as an ordered trace of `Action`s; the
callback returns this trace together with either an error string (a JS
`throw new Error`) or the updated draft account.
-/

namespace NodeBB

/-- JS truthiness of an optional string value: `undefined` and the empty
string are falsy, every other string is truthy. -/
def strTruthy : Option String → Bool
  | none => false
  | some s => s ≠ ""

/-- JS truthiness of an optional numeric uid: `undefined` and `0` are
falsy. -/
def uidTruthy : Option Nat → Bool
  | none => false
  | some n => n ≠ 0

/-- Whitespace characters removed by JS `String.prototype.trim` (the
ASCII subset, which covers the inputs considered here). -/
def isJsSpace (c : Char) : Bool :=
  c = ' ' || c = '\t' || c = '\n' || c = '\r' || c = '\x0b' || c = '\x0c'

/-- JS `String.prototype.trim`: drop whitespace from both ends. -/
def jsTrim (s : String) : String :=
  ⟨((s.data.dropWhile isJsSpace).reverse.dropWhile isJsSpace).reverse⟩

/-- The draft account (`data.userData` in the source): the mutable record
being created (`uid` falsy) or edited (`uid` truthy).  Only the fields the
module reads or writes are modelled. -/
structure Draft where
  uid : Option Nat
  updateEmail : Bool
  email : Option String
  gdpr_consent : Bool
  acceptTos : Bool
  deriving DecidableEq

/-- The form data submitted to the email-step interstitial. -/
structure FormData where
  email : Option String
  password : Option String
  deriving DecidableEq

/-- The form data submitted to the consent-step interstitial; a missing
checkbox is the empty string (anything other than "on" behaves alike). -/
structure GdprForm where
  gdpr_agree_data : String
  gdpr_agree_email : String
  deriving DecidableEq

/-- The form data submitted to the terms-of-use interstitial;
`agreeTerms` models the `agree-terms` field. -/
structure TouForm where
  agreeTerms : String
  deriving DecidableEq

/-- Results of every external call the module makes, plus the request
identity and the deployment configuration.  One `Ctx` corresponds to one
request/registration transaction. -/
structure Ctx where
  /-- `data.req.uid`: the requesting (authenticated) actor. -/
  reqUid : Nat
  /-- `data.req.session.id`. -/
  sessionId : String
  /-- `privileges.admin.can('admin:users', data.req.uid)`. -/
  canManageUsers : Bool
  /-- `user.hasPassword(data.userData.uid)`. -/
  hasPassword : Bool
  /-- `user.email.isValidationPending(data.userData.uid)`. -/
  hasPending : Bool
  /-- `user.getUserField(uid, 'email')`: the target account's current email. -/
  currentEmail : String
  /-- `email:confirmed` field of the target account (truthy). -/
  emailConfirmed : Bool
  /-- `user.isPasswordCorrect(uid, formData.password, ip)`: the verdict
  on the submitted password. -/
  isPasswordCorrect : Bool
  /-- `privileges.users.canEdit(data.req.uid, userData.uid)`. -/
  canEdit : Bool
  /-- `allowed` returned by the `filter:user.saveEmail` hook with
  `registration: false`. -/
  saveEmailAllowedEdit : Bool
  /-- `error` returned by that same hook invocation. -/
  saveEmailErrorEdit : String
  /-- `allowed` returned by `filter:user.saveEmail` with `registration: true`. -/
  saveEmailAllowedReg : Bool
  /-- `error` returned by that same hook invocation. -/
  saveEmailErrorReg : String
  /-- `utils.isEmailValid`. -/
  isEmailValid : String → Bool
  /-- `user.email.canSendValidation(uid, current)`. -/
  canSendValidation : Bool
  /-- `user.email.available`. -/
  emailAvailable : String → Bool
  /-- `meta.config.requireEmailAddress` (truthy). -/
  requireEmailAddress : Bool
  /-- `meta.config.emailConfirmInterval`. -/
  emailConfirmInterval : Nat
  /-- `meta.config.gdpr_enabled` (truthy). -/
  gdprEnabled : Bool
  /-- `meta.config.dailyDigestFreq`. -/
  dailyDigestFreq : String
  /-- `meta.config.termsOfUse` (falsy means the empty string). -/
  termsOfUse : String
  /-- `parseInt` of `db.getObjectField('user:uid', 'gdpr_consent')`
  (`NaN`, i.e. a non-numeric field, is modelled as 0, which is equally falsy). -/
  storedGdprConsent : Nat → Nat
  /-- `parseInt` of `db.getObjectField('user:uid', 'acceptTos')`. -/
  storedAcceptTos : Nat → Nat
  /-- The `filter:parse.post` hook applied to `postData.content`. -/
  parseContent : String → String

/-- Render data of the email-update interstitial (`partials/email_update`). -/
structure EmailRenderData where
  email : Option String
  requireEmailAddress : Bool
  issuePasswordChallenge : Bool
  hasPending : Bool
  deriving DecidableEq

/-- An interstitial entry pushed onto `data.interstitials`, identified by
its template with its render data.  The callbacks are modelled as the
standalone functions `emailCallback`, `gdprCallback`, `touCallback`. -/
inductive Interstitial where
  | emailUpdate (d : EmailRenderData)
  | gdprConsent (digestFrequency : String) (digestEnabled : Bool)
  | acceptTos (termsOfUse : String)
  deriving DecidableEq

/-- The `data` object threaded through the steps: the draft account
(`none` models a missing `data.userData`) and the accumulated
interstitial list. -/
structure StepData where
  userData : Option Draft
  interstitials : List Interstitial
  deriving DecidableEq

/-- Side effects the email-step callback performs, in execution order. -/
inductive Action where
  /-- `await sleep(ms)`. -/
  | sleep (ms : Nat)
  /-- `user.email.remove(uid, sessionId?)`. -/
  | emailRemove (uid : Nat) (sessionId : Option String)
  /-- `user.setUserField(uid, 'email', email)`. -/
  | setEmailField (uid : Nat) (email : String)
  /-- `user.email.confirmByUid(uid)`. -/
  | confirmByUid (uid : Nat)
  /-- `user.email.sendValidationEmail(uid, {email, force: true})`. -/
  | sendValidationEmail (uid : Nat) (email : String)
  /-- `data.req.session.emailChanged = 1`. -/
  | sessionEmailChanged
  deriving DecidableEq

/-- Whether an action mutates the draft/account/session state (everything
except the throttle sleep does). -/
def Action.isMutation : Action → Bool
  | .sleep _ => false
  | _ => true

/-- Result of running the email-step callback: the ordered trace of side
effects performed, and either the thrown error message or the updated
draft account. -/
structure CbResult where
  trace : List Action
  result : Except String Draft

namespace Interstitials

/-- The callback of the email-update interstitial
(`interstitials.js` lines 55–146), transcribed branch for branch. -/
def emailCallback (ctx : Ctx) (userData : Draft) (formData : FormData) : CbResult :=
  -- `if (formData.email) formData.email = String(formData.email).trim();`
  let fEmail : Option String :=
    match formData.email with
    | some s => if s ≠ "" then some (jsTrim s) else some s
    | none => none
  if uidTruthy userData.uid then
    let uid := userData.uid.getD 0
    let isSelf := uid = ctx.reqUid
    -- joined concurrent lookups
    let isPasswordCorrect := ctx.isPasswordCorrect
    let canEdit := ctx.canEdit
    let current := ctx.currentEmail
    let confirmed := ctx.emailConfirmed
    let allowed := ctx.saveEmailAllowedEdit
    let error := ctx.saveEmailErrorEdit
    -- `if (!canManageUsers && !isPasswordCorrect) await sleep(2000);`
    let trace0 : List Action :=
      if !ctx.canManageUsers && !isPasswordCorrect then [.sleep 2000] else []
    if strTruthy fEmail then
      let e := fEmail.getD ""
      if !allowed || !ctx.isEmailValid e then
        ⟨trace0, .error error⟩
      else if e = current && confirmed then
        ⟨trace0, .error "[[error:email-nochange]]"⟩
      else if e = current && !confirmed && !ctx.canSendValidation then
        ⟨trace0, .error ("[[error:confirm-email-already-sent, " ++
          toString ctx.emailConfirmInterval ++ "]]")⟩
      else if ctx.canManageUsers && uid ≠ ctx.reqUid then
        if !ctx.emailAvailable e then
          ⟨trace0, .error "[[error:email-taken]]"⟩
        else
          ⟨trace0 ++ [.emailRemove uid none, .setEmailField uid e, .confirmByUid uid],
            .ok { userData with updateEmail := false }⟩
      else if canEdit then
        if ctx.hasPassword && !isPasswordCorrect then
          ⟨trace0, .error "[[error:invalid-password]]"⟩
        else
          ⟨trace0 ++ [.sendValidationEmail uid e, .sessionEmailChanged],
            .ok { userData with updateEmail := false }⟩
      else
        ⟨trace0, .error "[[error:no-privileges]]"⟩
    else
      if ctx.requireEmailAddress then
        ⟨trace0, .error "[[error:invalid-email]]"⟩
      else if current.length ≠ 0 &&
          (!ctx.hasPassword || (ctx.hasPassword && isPasswordCorrect) || ctx.canManageUsers) then
        ⟨trace0 ++ [.emailRemove uid (if isSelf then some ctx.sessionId else none)],
          .ok { userData with updateEmail := false }⟩
      else
        ⟨trace0, .ok { userData with updateEmail := false }⟩
  else
    let allowed := ctx.saveEmailAllowedReg
    let error := ctx.saveEmailErrorReg
    if !allowed || (ctx.requireEmailAddress && !strTruthy fEmail) then
      ⟨[], .error error⟩
    else
      ⟨[], .ok { userData with email := fEmail, updateEmail := false }⟩

/-- `Interstitials.email` (lines 23–150): throws on a missing draft,
passes through when `updateEmail` is not set, otherwise pushes the
email-update interstitial with its render data. -/
def email (ctx : Ctx) (data : StepData) : Except String StepData :=
  match data.userData with
  | none => .error "[[error:invalid-data]]"
  | some d =>
    if !d.updateEmail then
      .ok data
    else
      .ok { data with interstitials := data.interstitials ++
        [.emailUpdate {
          email := if uidTruthy d.uid then some ctx.currentEmail else none,
          requireEmailAddress := ctx.requireEmailAddress,
          issuePasswordChallenge := ctx.hasPassword &&
            ((ctx.canManageUsers && d.uid = some ctx.reqUid) ||
              (!ctx.canManageUsers && uidTruthy d.uid)),
          hasPending := ctx.hasPending }] }

/-- The callback of the consent interstitial (lines 173–179): `next` is
modelled by the second component (`none` = continue, `some err` = deny). -/
def gdprCallback (userData : Draft) (formData : GdprForm) : Draft × Option String :=
  let ud :=
    if formData.gdpr_agree_data = "on" && formData.gdpr_agree_email = "on" then
      { userData with gdpr_consent := true }
    else
      userData
  (ud, if ud.gdpr_consent then none else some "[[register:gdpr_consent_denied]]")

/-- `Interstitials.gdpr` (lines 152–182). -/
def gdpr (ctx : Ctx) (data : StepData) : Except String StepData :=
  if !ctx.gdprEnabled ||
      (match data.userData with | some d => d.gdpr_consent | none => false) then
    .ok data
  else
    match data.userData with
    | none => .error "[[error:invalid-data]]"
    | some d =>
      if uidTruthy d.uid && ctx.storedGdprConsent (d.uid.getD 0) ≠ 0 then
        .ok data
      else
        .ok { data with interstitials := data.interstitials ++
          [.gdprConsent ctx.dailyDigestFreq (ctx.dailyDigestFreq ≠ "off")] }

/-- The callback of the terms-of-use interstitial (lines 211–217). -/
def touCallback (userData : Draft) (formData : TouForm) : Draft × Option String :=
  let ud :=
    if formData.agreeTerms = "on" then { userData with acceptTos := true } else userData
  (ud, if ud.acceptTos then none else some "[[register:terms_of_use_error]]")

/-- `Interstitials.tou` (lines 184–220). -/
def tou (ctx : Ctx) (data : StepData) : Except String StepData :=
  match data.userData with
  | none => .error "[[error:invalid-data]]"
  | some d =>
    if ctx.termsOfUse = "" || d.acceptTos then
      .ok data
    else if uidTruthy d.uid && ctx.storedAcceptTos (d.uid.getD 0) ≠ 0 then
      .ok data
    else
      .ok { data with interstitials := data.interstitials ++
        [.acceptTos (ctx.parseContent
          (if ctx.termsOfUse = "" then "" else ctx.termsOfUse))] }

end Interstitials

/-- A neutral concrete context used as the basis of concrete evaluations:
no privileges, no password, empty current email, all bus filters allowing,
all configuration switched off. -/
def baseCtx : Ctx where
  reqUid := 1
  sessionId := "sess"
  canManageUsers := false
  hasPassword := false
  hasPending := false
  currentEmail := ""
  emailConfirmed := false
  isPasswordCorrect := false
  canEdit := false
  saveEmailAllowedEdit := true
  saveEmailErrorEdit := "[[error:invalid-email]]"
  saveEmailAllowedReg := true
  saveEmailErrorReg := "[[error:invalid-email]]"
  isEmailValid := fun _ => true
  canSendValidation := true
  emailAvailable := fun _ => true
  requireEmailAddress := false
  emailConfirmInterval := 10
  gdprEnabled := false
  dailyDigestFreq := "off"
  termsOfUse := ""
  storedGdprConsent := fun _ => 0
  storedAcceptTos := fun _ => 0
  parseContent := fun s => s

/-- A neutral concrete draft: a new account mid-email-update with no
flags set. -/
def baseDraft : Draft where
  uid := none
  updateEmail := true
  email := none
  gdpr_consent := false
  acceptTos := false

/-- C9: for every input whose draft account exists but does not have
`updateEmail` set, the email step returns its input unchanged and
contributes no interstitial entry. -/
theorem email_passthrough_without_updateEmail (ctx : Ctx) (d : Draft)
    (ints : List Interstitial) (h : d.updateEmail = false) :
    Interstitials.email ctx ⟨some d, ints⟩ = .ok ⟨some d, ints⟩ := by
  simp [Interstitials.email, h]

theorem email_passthrough_without_updateEmail_witness :
    Interstitials.email baseCtx ⟨some { baseDraft with updateEmail := false }, []⟩ =
      .ok ⟨some { baseDraft with updateEmail := false }, []⟩ :=
  email_passthrough_without_updateEmail baseCtx
    { baseDraft with updateEmail := false } [] rfl

/-- C10: with consent collection disabled, `Interstitials.gdpr` returns
its input unchanged without error even when the draft account is absent,
whereas `Interstitials.tou` raises the missing-draft error for an absent
draft regardless of any configuration. -/
theorem gdpr_disabled_passthrough_tou_missing_draft (ctx : Ctx)
    (data : StepData) (ints : List Interstitial) (h : ctx.gdprEnabled = false) :
    Interstitials.gdpr ctx data = .ok data ∧
      Interstitials.tou ctx ⟨none, ints⟩ = .error "[[error:invalid-data]]" := by
  constructor
  · simp [Interstitials.gdpr, h]
  · rfl

theorem gdpr_disabled_passthrough_tou_missing_draft_witness :
    Interstitials.gdpr baseCtx ⟨none, []⟩ = .ok ⟨none, []⟩ ∧
      Interstitials.tou baseCtx ⟨none, []⟩ = .error "[[error:invalid-data]]" :=
  gdpr_disabled_passthrough_tou_missing_draft baseCtx ⟨none, []⟩ [] rfl

/-- C6: a new-account draft (no uid) submitting "a@example.com" with a
required email and the bus allowing succeeds: the draft gains
`email = "a@example.com"` and the `updateEmail` flag is removed, with no
side effects performed. -/
theorem new_account_email_staged (ctx : Ctx) (d : Draft) (fd : FormData)
    (hu : d.uid = none)
    (he : fd.email = some "a@example.com")
    (hreq : ctx.requireEmailAddress = true)
    (hallow : ctx.saveEmailAllowedReg = true) :
    Interstitials.emailCallback ctx d fd =
      ⟨[], .ok { d with email := some "a@example.com", updateEmail := false }⟩ := by
  have htrim : jsTrim "a@example.com" = "a@example.com" := by decide
  simp [Interstitials.emailCallback, hu, he, hallow, hreq, uidTruthy, strTruthy, htrim]

theorem new_account_email_staged_witness :
    Interstitials.emailCallback { baseCtx with requireEmailAddress := true }
        baseDraft ⟨some "a@example.com", none⟩ =
      ⟨[], .ok { baseDraft with email := some "a@example.com", updateEmail := false }⟩ :=
  new_account_email_staged { baseCtx with requireEmailAddress := true }
    baseDraft ⟨some "a@example.com", none⟩ rfl rfl rfl rfl

/-- C4: an actor who can administer accounts, editing someone else's
account, submitting a trimmed non-empty email that the bus allows, that
is well-formed, differs from the current email and is available, makes
the callback succeed with exactly the effects: remove the old email
binding, set the new email field, confirm the email — with the password
verdict and the password's existence both left arbitrary (no password
verification required). -/
theorem admin_editing_other_sets_and_confirms (ctx : Ctx) (d : Draft) (s : String)
    (u : Nat) (p : Option String)
    (hu : d.uid = some u) (hu0 : u ≠ 0) (hother : u ≠ ctx.reqUid)
    (hadmin : ctx.canManageUsers = true)
    (hs : s ≠ "") (he : jsTrim s ≠ "")
    (hallow : ctx.saveEmailAllowedEdit = true)
    (hvalid : ctx.isEmailValid (jsTrim s) = true)
    (hdiff : jsTrim s ≠ ctx.currentEmail)
    (havail : ctx.emailAvailable (jsTrim s) = true) :
    Interstitials.emailCallback ctx d ⟨some s, p⟩ =
      ⟨[.emailRemove u none, .setEmailField u (jsTrim s), .confirmByUid u],
        .ok { d with updateEmail := false }⟩ := by
  simp [Interstitials.emailCallback, hu, hu0, hother, hadmin, hs, he, hallow,
    hvalid, hdiff, havail, uidTruthy, strTruthy]

theorem admin_editing_other_sets_and_confirms_witness :
    Interstitials.emailCallback
        { baseCtx with canManageUsers := true, currentEmail := "old@example.org" }
        { baseDraft with uid := some 2 } ⟨some "new@example.org", none⟩ =
      ⟨[.emailRemove 2 none, .setEmailField 2 "new@example.org", .confirmByUid 2],
        .ok { baseDraft with uid := some 2, updateEmail := false }⟩ :=
  admin_editing_other_sets_and_confirms
    { baseCtx with canManageUsers := true, currentEmail := "old@example.org" }
    { baseDraft with uid := some 2 } "new@example.org" 2 none
    rfl (by decide) (by decide) rfl (by decide) (by decide) rfl rfl (by decide) rfl

/-- C8: in every run of the email-step callback on an existing-account
draft where the actor cannot administer accounts and the password check
failed, the very first recorded side effect is the 2000ms throttle sleep:
it is present (never skipped) and precedes every other effect of the run
(never reordered or detached), whatever the submitted email and however
the run ends. -/
theorem throttle_sleep_first (ctx : Ctx) (d : Draft) (fd : FormData) (u : Nat)
    (hu : d.uid = some u) (hu0 : u ≠ 0)
    (hm : ctx.canManageUsers = false) (hp : ctx.isPasswordCorrect = false) :
    (Interstitials.emailCallback ctx d fd).trace.head? = some (Action.sleep 2000) := by
  have hut : uidTruthy d.uid = true := by rw [hu]; simp [uidTruthy, hu0]
  have h0 : (!ctx.canManageUsers && !ctx.isPasswordCorrect) = true := by
    rw [hm, hp]; rfl
  simp only [Interstitials.emailCallback, hut, h0, if_true]
  repeat' split <;> try rfl

theorem throttle_sleep_first_witness :
    (Interstitials.emailCallback { baseCtx with hasPassword := true }
        { baseDraft with uid := some 1 } ⟨some "x@example.org", some "wrong"⟩).trace.head? =
      some (Action.sleep 2000) :=
  throttle_sleep_first { baseCtx with hasPassword := true }
    { baseDraft with uid := some 1 } ⟨some "x@example.org", some "wrong"⟩ 1
    rfl (by decide) rfl rfl

/-- A requester who is not an administrator but passes the edit-privilege
check on another account (for instance a global moderator), with the
correct password and a fresh valid target email. -/
def ctxNonAdminCanEdit : Ctx :=
  { baseCtx with canEdit := true, hasPassword := true, isPasswordCorrect := true, currentEmail := "old@example.org", emailConfirmed := true }

/-- C1 counterexample: a non-administrator (`canManageUsers = false`)
whose edit-privilege check succeeds submits a fresh valid email for
another account (uid 2, requester 1): the callback succeeds instead of
failing, refuting the claim that such an attempt always fails with
`no-privileges`. -/
theorem nonadmin_other_account_counterexample :
    (Interstitials.emailCallback ctxNonAdminCanEdit { baseDraft with uid := some 2 }
        ⟨some "new@example.org", some "pw"⟩).result =
      .ok { baseDraft with uid := some 2, updateEmail := false } ∧
    ctxNonAdminCanEdit.canManageUsers = false ∧ ctxNonAdminCanEdit.reqUid = 1 ∧
    ∀ e : String,
      (Interstitials.emailCallback ctxNonAdminCanEdit { baseDraft with uid := some 2 }
        ⟨some "new@example.org", some "pw"⟩).result ≠ .error e := by
  have hres : (Interstitials.emailCallback ctxNonAdminCanEdit
      { baseDraft with uid := some 2 } ⟨some "new@example.org", some "pw"⟩).result =
      .ok { baseDraft with uid := some 2, updateEmail := false } := rfl
  refine ⟨hres, rfl, rfl, fun e h => ?_⟩
  rw [hres] at h
  exact Except.noConfusion h

/-- C1 amended: for an existing-account draft, a non-empty submitted
email, an actor who can neither administer accounts nor pass the
edit-privilege check on the (other) target account, and a submission not
intercepted by the earlier bus/format/same-email errors, the callback
fails with `no-privileges` — regardless of the password verdict. -/
theorem nonadmin_without_edit_priv_fails_no_privileges (ctx : Ctx) (d : Draft)
    (s : String) (u : Nat) (p : Option String)
    (hu : d.uid = some u) (hu0 : u ≠ 0) (hother : u ≠ ctx.reqUid)
    (hm : ctx.canManageUsers = false) (hedit : ctx.canEdit = false)
    (hs : s ≠ "") (he : jsTrim s ≠ "")
    (hallow : ctx.saveEmailAllowedEdit = true)
    (hvalid : ctx.isEmailValid (jsTrim s) = true)
    (hnochange : jsTrim s = ctx.currentEmail →
      ctx.emailConfirmed = false ∧ ctx.canSendValidation = true) :
    (Interstitials.emailCallback ctx d ⟨some s, p⟩).result =
      .error "[[error:no-privileges]]" := by
  by_cases hc : jsTrim s = ctx.currentEmail
  · have hconf := (hnochange hc).1
    have hsend := (hnochange hc).2
    have he' : ctx.currentEmail ≠ "" := hc ▸ he
    have hvalid' : ctx.isEmailValid ctx.currentEmail = true := hc ▸ hvalid
    simp [Interstitials.emailCallback, hu, hu0, uidTruthy, strTruthy, hs, he, he',
      hallow, hvalid, hvalid', hm, hedit, hc, hconf, hsend]
  · simp [Interstitials.emailCallback, hu, hu0, uidTruthy, strTruthy, hs, he,
      hallow, hvalid, hm, hedit, hc]

theorem nonadmin_without_edit_priv_fails_no_privileges_witness :
    (Interstitials.emailCallback
        { baseCtx with currentEmail := "old@example.org", emailConfirmed := true }
        { baseDraft with uid := some 2 } ⟨some "new@example.org", some "pw"⟩).result =
      .error "[[error:no-privileges]]" :=
  nonadmin_without_edit_priv_fails_no_privileges
    { baseCtx with currentEmail := "old@example.org", emailConfirmed := true }
    { baseDraft with uid := some 2 } "new@example.org" 2 (some "pw")
    rfl (by decide) (by decide) rfl rfl (by decide) (by decide) rfl rfl
    (fun h => absurd h (by decide))

/-- An administrator-capable requester whose bus filter vetoes the email
change, with the target account keeping a confirmed email. -/
def ctxVetoedSame : Ctx :=
  { baseCtx with canManageUsers := true, currentEmail := "a@b.com", emailConfirmed := true, saveEmailAllowedEdit := false }

/-- C3 counterexample: the submitted email equals the current, confirmed
email, but the bus filter vetoes the change (`allowed = false`): the
callback fails with the bus-supplied `invalid-email` error, not with
`email-nochange`, refuting the claim that this situation always fails
with `email-nochange`. -/
theorem same_confirmed_email_counterexample :
    Interstitials.emailCallback ctxVetoedSame { baseDraft with uid := some 3 }
        ⟨some "a@b.com", none⟩ =
      ⟨[], .error "[[error:invalid-email]]"⟩ ∧
    jsTrim "a@b.com" = ctxVetoedSame.currentEmail ∧
    ctxVetoedSame.emailConfirmed = true ∧
    ("[[error:invalid-email]]" : String) ≠ "[[error:email-nochange]]" := by
  refine ⟨?_, by decide, rfl, by decide⟩
  have : (Interstitials.emailCallback ctxVetoedSame { baseDraft with uid := some 3 }
      ⟨some "a@b.com", none⟩).trace = [] := rfl
  have h2 : (Interstitials.emailCallback ctxVetoedSame { baseDraft with uid := some 3 }
      ⟨some "a@b.com", none⟩).result = .error "[[error:invalid-email]]" := rfl
  exact congrArg₂ CbResult.mk this h2

/-- C3 amended: when the submitted trimmed non-empty email equals the
current email of the existing account, that email is already confirmed,
and the earlier bus/format checks pass, the callback fails with
`email-nochange` and performs no mutating side effect (its trace holds at
most the throttle sleep). -/
theorem same_confirmed_email_nochange (ctx : Ctx) (d : Draft) (s : String)
    (u : Nat) (p : Option String)
    (hu : d.uid = some u) (hu0 : u ≠ 0)
    (hs : s ≠ "") (he : jsTrim s ≠ "")
    (hcur : jsTrim s = ctx.currentEmail) (hconf : ctx.emailConfirmed = true)
    (hallow : ctx.saveEmailAllowedEdit = true)
    (hvalid : ctx.isEmailValid (jsTrim s) = true) :
    (Interstitials.emailCallback ctx d ⟨some s, p⟩).result =
      .error "[[error:email-nochange]]" ∧
    ∀ a ∈ (Interstitials.emailCallback ctx d ⟨some s, p⟩).trace,
      a.isMutation = false := by
  have he' : ctx.currentEmail ≠ "" := hcur ▸ he
  have hvalid' : ctx.isEmailValid ctx.currentEmail = true := hcur ▸ hvalid
  have key : Interstitials.emailCallback ctx d ⟨some s, p⟩ =
      ⟨if !ctx.canManageUsers && !ctx.isPasswordCorrect then [Action.sleep 2000] else [],
        .error "[[error:email-nochange]]"⟩ := by
    simp [Interstitials.emailCallback, hu, hu0, uidTruthy, strTruthy, hs, he, he',
      hallow, hvalid, hvalid', hcur, hconf]
  refine ⟨by rw [key], ?_⟩
  rw [key]
  by_cases hq : (!ctx.canManageUsers && !ctx.isPasswordCorrect) = true
  · simp [hq, Action.isMutation]
  · rw [Bool.not_eq_true] at hq
    simp [hq]

theorem same_confirmed_email_nochange_witness :
    (Interstitials.emailCallback
        { baseCtx with currentEmail := "a@b.com", emailConfirmed := true }
        { baseDraft with uid := some 3 } ⟨some "a@b.com", none⟩).result =
      .error "[[error:email-nochange]]" ∧
    ∀ a ∈ (Interstitials.emailCallback
        { baseCtx with currentEmail := "a@b.com", emailConfirmed := true }
        { baseDraft with uid := some 3 } ⟨some "a@b.com", none⟩).trace,
      a.isMutation = false :=
  same_confirmed_email_nochange
    { baseCtx with currentEmail := "a@b.com", emailConfirmed := true }
    { baseDraft with uid := some 3 } "a@b.com" 3 none
    rfl (by decide) (by decide) (by decide) (by decide) rfl rfl rfl

/-- The password-challenge condition as the spec words it: the account
already has a password AND either an administrator is editing their own
account, or a non-administrator is editing their own account. -/
def specIssuePasswordChallenge (ctx : Ctx) (d : Draft) : Bool :=
  ctx.hasPassword &&
    ((ctx.canManageUsers && d.uid = some ctx.reqUid) ||
      (!ctx.canManageUsers && d.uid = some ctx.reqUid))

/-- C2 counterexample: a non-administrator (requester 7) with the email
interstitial raised for a different existing account (uid 5) that has a
password: the code renders `issuePasswordChallenge = true`, while the
spec's condition (non-administrator editing their *own* account)
evaluates to false. -/
theorem issuePasswordChallenge_counterexample :
    Interstitials.email { baseCtx with hasPassword := true, reqUid := 7 }
        ⟨some { baseDraft with uid := some 5 }, []⟩ =
      .ok ⟨some { baseDraft with uid := some 5 },
        [.emailUpdate { email := some "", requireEmailAddress := false, issuePasswordChallenge := true, hasPending := false }]⟩ ∧
    specIssuePasswordChallenge { baseCtx with hasPassword := true, reqUid := 7 }
        { baseDraft with uid := some 5 } = false :=
  ⟨rfl, rfl⟩

/-- C2 amended: for every draft with `updateEmail` set, the email step
pushes exactly one interstitial, whose password-challenge flag is true
exactly when the account already has a password AND either the actor is
an administrator editing their own account, or the actor is a
non-administrator and the draft is for an existing account (truthy uid,
whether or not it is the actor's own). -/
theorem issuePasswordChallenge_characterization (ctx : Ctx) (d : Draft)
    (ints : List Interstitial) (h : d.updateEmail = true) :
    Interstitials.email ctx ⟨some d, ints⟩ =
      .ok ⟨some d, ints ++ [.emailUpdate {
        email := if uidTruthy d.uid then some ctx.currentEmail else none,
        requireEmailAddress := ctx.requireEmailAddress,
        issuePasswordChallenge := ctx.hasPassword &&
          ((ctx.canManageUsers && d.uid = some ctx.reqUid) ||
            (!ctx.canManageUsers && uidTruthy d.uid)),
        hasPending := ctx.hasPending }]⟩ := by
  simp [Interstitials.email, h]

theorem issuePasswordChallenge_characterization_witness :
    Interstitials.email { baseCtx with hasPassword := true, reqUid := 7 }
        ⟨some { baseDraft with uid := some 7 }, []⟩ =
      .ok ⟨some { baseDraft with uid := some 7 },
        [.emailUpdate {
          email := if uidTruthy (some 7) then
            some ({ baseCtx with hasPassword := true, reqUid := 7 } : Ctx).currentEmail
            else none,
          requireEmailAddress := false,
          issuePasswordChallenge := true &&
            ((false && (some 7 : Option Nat) = some 7) ||
              (!false && uidTruthy (some 7))),
          hasPending := false }]⟩ :=
  issuePasswordChallenge_characterization
    { baseCtx with hasPassword := true, reqUid := 7 }
    { baseDraft with uid := some 7 } [] rfl

/-- C5 counterexample: a draft whose consent flag is already set, with
both agreement toggles left off: the consent callback continues
successfully (`next(null)`), while the claim demands that any toggle
combination other than both-affirmative be denied. -/
theorem gdpr_callback_preset_consent_counterexample :
    (Interstitials.gdprCallback { baseDraft with gdpr_consent := true }
        ⟨"", ""⟩).2 = none ∧
    ¬(("" : String) = "on" ∧ ("" : String) = "on") :=
  ⟨rfl, by decide⟩

/-- C5 amended: for every draft whose consent flag is not already set,
the consent callback sets the flag and continues exactly when both
toggles are "on"; for any other toggle combination it leaves the draft
unchanged and denies continuation through the error continuation (it
never throws: the callback is a total function into the continuation
argument). -/
theorem gdpr_callback_characterization (d : Draft) (fd : GdprForm)
    (h : d.gdpr_consent = false) :
    (fd.gdpr_agree_data = "on" ∧ fd.gdpr_agree_email = "on" →
      Interstitials.gdprCallback d fd = ({ d with gdpr_consent := true }, none)) ∧
    (¬(fd.gdpr_agree_data = "on" ∧ fd.gdpr_agree_email = "on") →
      Interstitials.gdprCallback d fd =
        (d, some "[[register:gdpr_consent_denied]]")) := by
  constructor
  · rintro ⟨h1, h2⟩
    simp [Interstitials.gdprCallback, h1, h2]
  · intro hn
    rw [Decidable.not_and_iff_or_not] at hn
    rcases hn with hn | hn <;> simp [Interstitials.gdprCallback, hn, h]

theorem gdpr_callback_characterization_witness :
    (("on" : String) = "on" ∧ ("on" : String) = "on" →
      Interstitials.gdprCallback baseDraft ⟨"on", "on"⟩ =
        ({ baseDraft with gdpr_consent := true }, none)) ∧
    (¬(("on" : String) = "on" ∧ ("" : String) = "on") →
      Interstitials.gdprCallback baseDraft ⟨"on", ""⟩ =
        (baseDraft, some "[[register:gdpr_consent_denied]]")) :=
  ⟨(gdpr_callback_characterization baseDraft ⟨"on", "on"⟩ rfl).1,
    (gdpr_callback_characterization baseDraft ⟨"on", ""⟩ rfl).2⟩

/-- C7: for every applicable terms-of-use interstitial (terms text
configured, acceptance not already recorded on the draft or in storage),
the rendered terms text is the configured terms-of-use text passed
through the parse hook, and the callback — on any draft still lacking the
acceptance flag, as applicability guarantees — records acceptance and
continues exactly when the agreement toggle is "on", and otherwise
signals the terms-rejection error through the continuation (the callback
is a total function into the continuation argument: it never throws). -/
theorem tou_render_and_acceptance (ctx : Ctx) (d : Draft) (ints : List Interstitial)
    (hterms : ctx.termsOfUse ≠ "") (hacc : d.acceptTos = false)
    (hstored : (uidTruthy d.uid && ctx.storedAcceptTos (d.uid.getD 0) ≠ 0) = false) :
    Interstitials.tou ctx ⟨some d, ints⟩ =
      .ok ⟨some d, ints ++ [.acceptTos (ctx.parseContent ctx.termsOfUse)]⟩ ∧
    ∀ d2 : Draft, d2.acceptTos = false →
      (∀ fd : TouForm, fd.agreeTerms = "on" →
        Interstitials.touCallback d2 fd = ({ d2 with acceptTos := true }, none)) ∧
      (∀ fd : TouForm, fd.agreeTerms ≠ "on" →
        Interstitials.touCallback d2 fd =
          (d2, some "[[register:terms_of_use_error]]")) := by
  constructor
  · simp [Interstitials.tou, hterms, hacc]
    intro h1
    rw [h1, Bool.true_and, decide_eq_false_iff_not] at hstored
    exact not_not.mp hstored
  · intro d2 hacc2
    constructor
    · intro fd hfd
      simp [Interstitials.touCallback, hfd]
    · intro fd hfd
      simp [Interstitials.touCallback, hfd, hacc2]

theorem tou_render_and_acceptance_witness :
    Interstitials.tou { baseCtx with termsOfUse := "Be nice" } ⟨some baseDraft, []⟩ =
      .ok ⟨some baseDraft, [.acceptTos (({ baseCtx with termsOfUse := "Be nice" } : Ctx).parseContent "Be nice")]⟩ ∧
    ∀ d2 : Draft, d2.acceptTos = false →
      (∀ fd : TouForm, fd.agreeTerms = "on" →
        Interstitials.touCallback d2 fd = ({ d2 with acceptTos := true }, none)) ∧
      (∀ fd : TouForm, fd.agreeTerms ≠ "on" →
        Interstitials.touCallback d2 fd =
          (d2, some "[[register:terms_of_use_error]]")) :=
  tou_render_and_acceptance { baseCtx with termsOfUse := "Be nice" } baseDraft []
    (by decide) rfl rfl

end NodeBB
